import Mathlib

/-!
# BackgroundCanvas

A shallow embedding of `src/BackgroundCanvas.js`: the private fields of the
class become one record, every private method becomes a function on that
record, and the browser callbacks (resize, mousemove, animation frame,
completion of the glTF load) become events folded over the record.

JavaScript numbers are embedded as rationals, so arithmetic is exact; the
rounding of IEEE doubles is outside the model.  What the methods read from
the global `window` and from `performance.now()` is passed in explicitly.
-/

namespace BackgroundCanvas

/-! ## Values read from the browser -/

/-- The three properties of the global `window` that the class reads. -/
structure Window where
  innerWidth : ℚ
  innerHeight : ℚ
  devicePixelRatio : ℚ
  deriving DecidableEq, Repr

/-- The two properties of a `mousemove` event that `onMouseMove` reads. -/
structure MouseEvent where
  clientX : ℚ
  clientY : ℚ
  deriving DecidableEq, Repr

/-! ## Library objects, by the fields the class reads and writes -/

/-- A three.js `Vector3` (also used for the angles of an `Euler`). -/
@[ext]
structure Vector3 where
  x : ℚ
  y : ℚ
  z : ℚ
  deriving DecidableEq, Repr

/-- The literal object stored in `#cursorPosition`. -/
@[ext]
structure CursorPosition where
  x : ℚ
  y : ℚ
  deriving DecidableEq, Repr

/-- The frustum parameters a projection matrix was last computed from. -/
structure Projection where
  fov : ℚ
  aspect : ℚ
  near : ℚ
  far : ℚ
  deriving DecidableEq, Repr

/-- A three.js `PerspectiveCamera`: its frustum parameters, its position and
the parameters of the projection matrix currently in effect. -/
structure PerspectiveCamera where
  fov : ℚ
  aspect : ℚ
  near : ℚ
  far : ℚ
  position : Vector3
  projection : Projection
  deriving DecidableEq, Repr

/-- The call `new PerspectiveCamera(fov, aspect, near, far)`: the camera sits at
the origin and its projection matrix is computed from the four arguments. -/
def PerspectiveCamera.new (fov aspect near far : ℚ) : PerspectiveCamera :=
  { fov := fov, aspect := aspect, near := near, far := far,
    position := ⟨0, 0, 0⟩,
    projection := ⟨fov, aspect, near, far⟩ }

/-- The call `camera.updateProjectionMatrix()`. -/
def PerspectiveCamera.updateProjectionMatrix (c : PerspectiveCamera) : PerspectiveCamera :=
  { c with projection := ⟨c.fov, c.aspect, c.near, c.far⟩ }

/-- The texture encodings a renderer can output. -/
inductive Encoding where
  | LinearEncoding
  | sRGBEncoding
  deriving DecidableEq, Repr

/-- A three.js `WebGLRenderer`: construction options, logical size, pixel ratio
and output encoding. -/
structure WebGLRenderer where
  alpha : Bool
  antialias : Bool
  width : ℚ
  height : ℚ
  pixelRatio : ℚ
  outputEncoding : Encoding
  deriving DecidableEq, Repr

/-- The call `renderer.setSize(width, height)`. -/
def WebGLRenderer.setSize (width height : ℚ) (r : WebGLRenderer) : WebGLRenderer :=
  { r with width := width, height := height }

/-- The call `renderer.setPixelRatio(value)`. -/
def WebGLRenderer.setPixelRatio (value : ℚ) (r : WebGLRenderer) : WebGLRenderer :=
  { r with pixelRatio := value }

/-- The lights the class creates, with colour, intensity and, where set,
distance and position. -/
inductive Light where
  | AmbientLight (color : ℕ) (intensity : ℚ)
  | DirectionalLight (color : ℕ) (intensity : ℚ) (position : Vector3)
  | PointLight (color : ℕ) (intensity : ℚ) (distance : ℚ) (position : Vector3)
  deriving DecidableEq, Repr

/-- The kind of a light, forgetting its parameters. -/
inductive LightKind where
  | ambient
  | directional
  | point
  deriving DecidableEq, Repr

/-- The kind of a light. -/
def Light.kind : Light → LightKind
  | .AmbientLight _ _ => .ambient
  | .DirectionalLight _ _ _ => .directional
  | .PointLight _ _ _ _ => .point

/-- The root node of a loaded glTF file: a name and the scale of the node. -/
structure GLTFScene where
  name : String
  scale : Vector3
  deriving DecidableEq, Repr

/-- What the glTF loader hands to the completion callback: the root node and
the names of the animation clips. -/
structure GLTF where
  scene : GLTFScene
  animations : List String
  deriving DecidableEq, Repr

/-- The object created by `new Mesh()` and stored in `#mesh`: its rotation and
the nodes added under it. -/
structure Mesh where
  rotation : Vector3
  children : List GLTFScene
  deriving DecidableEq, Repr

/-- A child of the scene: a light, or a reference to the object in `#mesh`. -/
inductive SceneChild where
  | light (l : Light)
  | mesh
  deriving DecidableEq, Repr

/-- A three.js `Scene`, by its list of children in insertion order. -/
structure Scene where
  children : List SceneChild
  deriving DecidableEq, Repr

/-- The call `scene.add(object)`. -/
def Scene.add (o : SceneChild) (s : Scene) : Scene :=
  { s with children := s.children ++ [o] }

/-- Modelled from the spec: the three.js `Clock` class, which is library code
outside `src/`.  The spec calls it a monotonic elapsed-time source, started
once at construction and queried for the delta since the previous query.
Times are in milliseconds, deltas in seconds. -/
structure Clock where
  autoStart : Bool
  startTime : ℚ
  oldTime : ℚ
  elapsedTime : ℚ
  running : Bool
  deriving DecidableEq, Repr

/-- The call `new Clock()`. -/
def Clock.new : Clock :=
  { autoStart := true, startTime := 0, oldTime := 0, elapsedTime := 0, running := false }

/-- The call `clock.start()` when `performance.now()` reads `now`. -/
def Clock.start (now : ℚ) (c : Clock) : Clock :=
  { c with startTime := now, oldTime := now, elapsedTime := 0, running := true }

/-- The call `clock.getDelta()` when `performance.now()` reads `now`: the
seconds since the previous query (or since the start) and the clock
afterwards. -/
def Clock.getDelta (now : ℚ) (c : Clock) : ℚ × Clock :=
  if c.autoStart && !c.running then
    (0, c.start now)
  else if c.running then
    let diff := (now - c.oldTime) / 1000
    (diff, { c with oldTime := now, elapsedTime := c.elapsedTime + diff })
  else
    (0, c)

/-- Modelled from the spec: the three.js `AnimationMixer` class, which is
library code outside `src/`: the animation player bound to the asset, which
is advanced by elapsed time.  It records the clips that are playing and the
total time it has been advanced by. -/
structure AnimationMixer where
  root : GLTFScene
  playing : List String
  time : ℚ
  deriving DecidableEq, Repr

/-- The call `new AnimationMixer(root)`. -/
def AnimationMixer.new (root : GLTFScene) : AnimationMixer :=
  { root := root, playing := [], time := 0 }

/-- The call `mixer.clipAction(clip).play()`. -/
def AnimationMixer.play (clip : String) (m : AnimationMixer) : AnimationMixer :=
  { m with playing := m.playing ++ [clip] }

/-- The call `mixer.update(deltaTime)`. -/
def AnimationMixer.update (deltaTime : ℚ) (m : AnimationMixer) : AnimationMixer :=
  { m with time := m.time + deltaTime }

/-! ## The class -/

/-- The private fields of `BackgroundCanvas`.  The fields `#lightAmbiant` and
`#directionalLight` alias two children of the scene and are never read,
`#canvasElement` and `#gltfLoader` are handles, and `#controls` is never
assigned (the call of `#createControls` is commented out), so it is
`undefined` in every state; these carry no state here. -/
structure State where
  renderer : WebGLRenderer
  camera : PerspectiveCamera
  scene : Scene
  mesh : Mesh
  clock : Clock
  mixer : Option AnimationMixer
  cursorPosition : CursorPosition
  deriving DecidableEq, Repr

/-- The method `#createRenderer`. -/
def createRenderer (w : Window) : WebGLRenderer :=
  let r : WebGLRenderer :=
    { alpha := true, antialias := true, width := 0, height := 0, pixelRatio := 1,
      outputEncoding := .LinearEncoding }
  let r := r.setSize w.innerWidth w.innerHeight
  let r := r.setPixelRatio (min w.devicePixelRatio 2)
  { r with outputEncoding := .sRGBEncoding }

/-- The method `#createCamera`. -/
def createCamera (w : Window) : PerspectiveCamera :=
  let c := PerspectiveCamera.new 75 (w.innerWidth / w.innerHeight) 1 100
  { c with position := ⟨0, 0, 12⟩ }

/-- The method `#createScene`. -/
def createScene : Scene :=
  { children := [] }

/-- The method `#createLights`. -/
def createLights (scene : Scene) : Scene :=
  let lightAmbiant := Light.AmbientLight 0xffffff 1
  let scene := scene.add (.light lightAmbiant)
  let directionalLight := Light.DirectionalLight 0xffffff (1 / 2) ⟨0, 0, 0⟩
  let scene := scene.add (.light directionalLight)
  let light1 := Light.PointLight 0x4192AB 2 0 ⟨10, 10, 5⟩
  let scene := scene.add (.light light1)
  let light3 := Light.PointLight 0xffffff (1 / 10) 0 ⟨-150, -200, -100⟩
  let scene := scene.add (.light light3)
  let mainLight := Light.DirectionalLight 0xffffff 5 ⟨10, 10, 10⟩
  scene.add (.light mainLight)

/-- The synchronous part of `#createGeometry`: the mixer is null, the mesh is
fresh and is added to the scene; the load itself is pending. -/
def createGeometry (scene : Scene) : Option AnimationMixer × Mesh × Scene :=
  let mixer : Option AnimationMixer := none
  let mesh : Mesh := { rotation := ⟨0, 0, 0⟩, children := [] }
  (mixer, mesh, scene.add .mesh)

/-- The callback that `#createGeometry` passes to the glTF loader. -/
def onGltfLoaded (gltf : GLTF) (s : State) : State :=
  let root : GLTFScene := { gltf.scene with scale := ⟨1 / 10, 1 / 10, 1 / 10⟩ }
  let mesh := { s.mesh with children := s.mesh.children ++ [root] }
  let mixer := AnimationMixer.new root
  let mixer := gltf.animations.foldl (fun m clip => m.play clip) mixer
  { s with mesh := mesh, mixer := some mixer }

/-- The method `#update`, run when `performance.now()` reads `now`.
Requesting the next frame and rendering leave the fields as they are, and
the branch on `#controls` is never taken, `#controls` being `undefined`. -/
def update (now : ℚ) (s : State) : State :=
  let s :=
    if s.cursorPosition.x ≠ 0 ∧ s.cursorPosition.y ≠ 0 then
      let cameraX := s.cursorPosition.x - 1
      let cameraY := s.cursorPosition.y * -1
      let x := s.camera.position.x + (cameraX - s.camera.position.x) / 10
      let y := s.camera.position.y + (cameraY - s.camera.position.y) / 10
      { s with camera := { s.camera with position := { s.camera.position with x := x, y := y } } }
    else s
  match s.mixer with
  | some m =>
    let (delta, clock) := s.clock.getDelta now
    { s with mixer := some (m.update delta), clock := clock }
  | none => s

/-- The method `#resize`. -/
def resize (w : Window) (s : State) : State :=
  let camera := { s.camera with aspect := w.innerWidth / w.innerHeight }
  let camera := camera.updateProjectionMatrix
  let renderer := s.renderer.setSize w.innerWidth w.innerHeight
  let renderer := renderer.setPixelRatio (min w.devicePixelRatio 2)
  { s with camera := camera, renderer := renderer }

/-- The method `#onMouseMove`. -/
def onMouseMove (w : Window) (event : MouseEvent) (s : State) : State :=
  { s with cursorPosition :=
      { x := event.clientX / w.innerWidth - 1 / 2,
        y := event.clientY / w.innerHeight - 1 / 2 } }

/-- The class constructor, run with the window `w` when `performance.now()`
reads `now`.  Registering the three listeners changes no field; their
callbacks are the events below. -/
def construct (w : Window) (now : ℚ) : State :=
  let cursorPosition : CursorPosition := { x := 0, y := 0 }
  let clock := Clock.new
  let clock := clock.start now
  let renderer := createRenderer w
  let camera := createCamera w
  let scene := createScene
  let scene := createLights scene
  let (mixer, mesh, scene) := createGeometry scene
  let s : State :=
    { renderer := renderer, camera := camera, scene := scene, mesh := mesh, clock := clock,
      mixer := mixer, cursorPosition := cursorPosition }
  update now s

/-- The properties a gsap tween can animate here. -/
inductive TweenTarget where
  | cameraPositionZ
  | meshRotationY
  deriving DecidableEq, Repr

/-- One `.to(target, vars, position)` entry of a gsap timeline. -/
structure Tween where
  target : TweenTarget
  value : ℚ
  duration : ℚ
  ease : String
  position : Option String
  deriving DecidableEq, Repr

/-- The method `#enterAnimation`: the two tweens it puts on the timeline. -/
def enterAnimation (s : State) : List Tween :=
  [ { target := .cameraPositionZ, value := s.camera.position.z + 10, duration := 27 / 10,
      ease := "expo.easeInOut", position := none },
    { target := .meshRotationY, value := s.mesh.rotation.y + 16 / 5, duration := 57 / 20,
      ease := "power3.easeIn", position := some "<15%" } ]

/-! ## Callbacks as events -/

/-- The callbacks that run between construction and the entrance animation. -/
inductive Event where
  | resize (w : Window)
  | mousemove (w : Window) (event : MouseEvent)
  | frame (now : ℚ)
  | gltfLoaded (gltf : GLTF)
  deriving DecidableEq, Repr

/-- Runs the callback of one event. -/
def dispatch (s : State) : Event → State
  | .resize w => resize w s
  | .mousemove w event => onMouseMove w event s
  | .frame now => update now s
  | .gltfLoaded gltf => onGltfLoaded gltf s

/-- Runs the callbacks of a list of events, oldest first. -/
def run (es : List Event) (s : State) : State :=
  es.foldl dispatch s

/-- Runs `#update` once for every time of the list, oldest first. -/
def frames (ts : List ℚ) (s : State) : State :=
  ts.foldl (fun s now => update now s) s

/-- An event is a frame. -/
def Event.isFrame : Event → Bool
  | .frame _ => true
  | _ => false

/-- An event is the completion of the glTF load. -/
def Event.isLoad : Event → Bool
  | .gltfLoaded _ => true
  | _ => false

/-- A mouse position lies inside the viewport of a window of positive size. -/
def inViewport (w : Window) (event : MouseEvent) : Prop :=
  0 < w.innerWidth ∧ 0 < w.innerHeight ∧
    0 ≤ event.clientX ∧ event.clientX ≤ w.innerWidth ∧
    0 ≤ event.clientY ∧ event.clientY ≤ w.innerHeight

instance (w : Window) (event : MouseEvent) : Decidable (inViewport w event) := by
  unfold inViewport
  infer_instance

/-- A mouse-move event lies inside the viewport; other events are not
constrained. -/
def Event.inside : Event → Prop
  | .mousemove w event => inViewport w event
  | _ => True

instance (e : Event) : Decidable e.inside := by
  cases e <;> unfold Event.inside <;> infer_instance

/-- Every mouse-move event of the list lies inside the viewport. -/
def mouseInside (es : List Event) : Prop :=
  ∀ e ∈ es, e.inside

instance (es : List Event) : Decidable (mouseInside es) := by
  unfold mouseInside
  infer_instance


/-! ## Measures used to state the properties -/

/-- The constant `cameraX` of `#update`: the target of the camera on the x axis. -/
def targetX (s : State) : ℚ :=
  s.cursorPosition.x - 1

/-- The constant `cameraY` of `#update`: the target of the camera on the y axis. -/
def targetY (s : State) : ℚ :=
  s.cursorPosition.y * -1

/-- The offset of the camera from its target on the x axis. -/
def offsetX (s : State) : ℚ :=
  s.camera.position.x - targetX s

/-- The offset of the camera from its target on the y axis. -/
def offsetY (s : State) : ℚ :=
  s.camera.position.y - targetY s

/-- The square of the distance of the camera from its target in the xy plane. -/
def distanceSq (s : State) : ℚ :=
  offsetX s ^ 2 + offsetY s ^ 2

/-- The camera lies in the box `[-3/2, 0] × [-1/2, 1/2]` of the xy plane. -/
def inBox (s : State) : Prop :=
  -3 / 2 ≤ s.camera.position.x ∧ s.camera.position.x ≤ 0 ∧
    -1 / 2 ≤ s.camera.position.y ∧ s.camera.position.y ≤ 1 / 2

instance (s : State) : Decidable (inBox s) := by
  unfold inBox
  infer_instance

/-- The cursor lies in `[-1/2, 1/2] × [-1/2, 1/2]`. -/
def cursorInRange (s : State) : Prop :=
  (-1 / 2 ≤ s.cursorPosition.x ∧ s.cursorPosition.x ≤ 1 / 2) ∧
    (-1 / 2 ≤ s.cursorPosition.y ∧ s.cursorPosition.y ≤ 1 / 2)

instance (s : State) : Decidable (cursorInRange s) := by
  unfold cursorInRange
  infer_instance

/-- The lights among the children of a scene, in order. -/
def Scene.lights (s : Scene) : List Light :=
  s.children.filterMap fun
    | .light l => some l
    | .mesh => none

/-- The number of children of a scene that are references to `#mesh`. -/
def Scene.meshCount (s : Scene) : ℕ :=
  s.children.count .mesh

/-- The number of lights of a kind in a scene. -/
def Scene.lightCount (k : LightKind) (s : Scene) : ℕ :=
  (s.lights.filter fun l => l.kind = k).length

/-- A window of 800 by 600 pixels with device pixel ratio 1. -/
def window800 : Window :=
  { innerWidth := 800, innerHeight := 600, devicePixelRatio := 1 }

/-- A window of 1024 by 768 pixels with device pixel ratio `d`. -/
def window1024 (d : ℚ) : Window :=
  { innerWidth := 1024, innerHeight := 768, devicePixelRatio := d }

/-- A glTF file with one animation clip. -/
def sampleGltf : GLTF :=
  { scene := { name := "Scene", scale := ⟨1, 1, 1⟩ }, animations := ["Take 001"] }

/-- The state after construction in an 800 by 600 window at time 0 and a mouse
move to (600, 300), the vertical middle of the window. -/
def cursorOnAxis : State :=
  onMouseMove window800 ⟨600, 300⟩ (construct window800 0)

/-- The state after construction in an 800 by 600 window at time 0 and a mouse
move to (600, 150), off both middle lines of the window. -/
def cursorOffAxis : State :=
  onMouseMove window800 ⟨600, 150⟩ (construct window800 0)

/-- The state after construction in an 800 by 600 window at time 0, a frame at
16 ms, and the completion of the glTF load. -/
def loadedAfterFrame : State :=
  run [.frame 16, .gltfLoaded sampleGltf] (construct window800 0)

/-! ## What one call of each method does to each field -/

theorem construct_eq (w : Window) (now : ℚ) :
    construct w now =
      { renderer :=
          { alpha := true, antialias := true, width := w.innerWidth, height := w.innerHeight,
            pixelRatio := min w.devicePixelRatio 2, outputEncoding := .sRGBEncoding },
        camera :=
          { fov := 75, aspect := w.innerWidth / w.innerHeight, near := 1, far := 100,
            position := ⟨0, 0, 12⟩,
            projection := ⟨75, w.innerWidth / w.innerHeight, 1, 100⟩ },
        scene :=
          { children :=
              [ .light (.AmbientLight 0xffffff 1),
                .light (.DirectionalLight 0xffffff (1 / 2) ⟨0, 0, 0⟩),
                .light (.PointLight 0x4192AB 2 0 ⟨10, 10, 5⟩),
                .light (.PointLight 0xffffff (1 / 10) 0 ⟨-150, -200, -100⟩),
                .light (.DirectionalLight 0xffffff 5 ⟨10, 10, 10⟩),
                .mesh ] },
        mesh := { rotation := ⟨0, 0, 0⟩, children := [] },
        clock :=
          { autoStart := true, startTime := now, oldTime := now, elapsedTime := 0,
            running := true },
        mixer := none,
        cursorPosition := ⟨0, 0⟩ } := by
  simp [construct, update, createGeometry, createLights, createScene, createCamera, createRenderer,
    Clock.new, Clock.start, Scene.add, PerspectiveCamera.new, WebGLRenderer.setSize,
    WebGLRenderer.setPixelRatio]

theorem update_cursorPosition (now : ℚ) (s : State) :
    (update now s).cursorPosition = s.cursorPosition := by
  obtain ⟨r, c, sc, m, cl, mx, cp⟩ := s
  cases mx <;> simp only [update] <;> split_ifs <;> rfl

theorem update_renderer (now : ℚ) (s : State) : (update now s).renderer = s.renderer := by
  obtain ⟨r, c, sc, m, cl, mx, cp⟩ := s
  cases mx <;> simp only [update] <;> split_ifs <;> rfl

theorem update_scene (now : ℚ) (s : State) : (update now s).scene = s.scene := by
  obtain ⟨r, c, sc, m, cl, mx, cp⟩ := s
  cases mx <;> simp only [update] <;> split_ifs <;> rfl

theorem update_mesh (now : ℚ) (s : State) : (update now s).mesh = s.mesh := by
  obtain ⟨r, c, sc, m, cl, mx, cp⟩ := s
  cases mx <;> simp only [update] <;> split_ifs <;> rfl

theorem update_camera_active (now : ℚ) (s : State)
    (hx : s.cursorPosition.x ≠ 0) (hy : s.cursorPosition.y ≠ 0) :
    (update now s).camera =
      { s.camera with
        position :=
          { x := s.camera.position.x + (s.cursorPosition.x - 1 - s.camera.position.x) / 10,
            y := s.camera.position.y + (s.cursorPosition.y * -1 - s.camera.position.y) / 10,
            z := s.camera.position.z } } := by
  obtain ⟨r, c, sc, m, cl, mx, cp⟩ := s
  simp only at hx hy
  cases mx <;> simp only [update] <;> rw [if_pos ⟨hx, hy⟩]

theorem update_camera_inactive (now : ℚ) (s : State)
    (h : s.cursorPosition.x = 0 ∨ s.cursorPosition.y = 0) :
    (update now s).camera = s.camera := by
  obtain ⟨r, c, sc, m, cl, mx, cp⟩ := s
  have hn : ¬ (cp.x ≠ 0 ∧ cp.y ≠ 0) := by
    rintro ⟨h1, h2⟩
    rcases h with h | h
    · exact h1 h
    · exact h2 h
  cases mx <;> simp only [update] <;> rw [if_neg hn]

theorem update_mixer_none (now : ℚ) (s : State) (h : s.mixer = none) :
    (update now s).mixer = none ∧ (update now s).clock = s.clock := by
  obtain ⟨r, c, sc, m, cl, mx, cp⟩ := s
  simp only at h
  subst h
  simp only [update]
  split_ifs <;> exact ⟨rfl, rfl⟩

theorem update_mixer_some (now : ℚ) (s : State) (m : AnimationMixer) (h : s.mixer = some m) :
    (update now s).mixer = some (m.update (s.clock.getDelta now).1) ∧
      (update now s).clock = (s.clock.getDelta now).2 := by
  obtain ⟨r, c, sc, me, cl, mx, cp⟩ := s
  simp only at h
  subst h
  simp only [update]
  split_ifs <;> exact ⟨rfl, rfl⟩

theorem update_position_z (now : ℚ) (s : State) :
    (update now s).camera.position.z = s.camera.position.z := by
  by_cases h : s.cursorPosition.x ≠ 0 ∧ s.cursorPosition.y ≠ 0
  · rw [update_camera_active now s h.1 h.2]
  · rw [update_camera_inactive now s (by tauto)]


theorem onMouseMove_eq (w : Window) (event : MouseEvent) (s : State) :
    onMouseMove w event s =
      { s with cursorPosition :=
          ⟨event.clientX / w.innerWidth - 1 / 2, event.clientY / w.innerHeight - 1 / 2⟩ } :=
  rfl

theorem onMouseMove_camera (w : Window) (event : MouseEvent) (s : State) :
    (onMouseMove w event s).camera = s.camera :=
  rfl

theorem onMouseMove_cursorInRange (w : Window) (event : MouseEvent) (s : State)
    (h : inViewport w event) : cursorInRange (onMouseMove w event s) := by
  obtain ⟨hW, hH, hx0, hx1, hy0, hy1⟩ := h
  have hx : 0 ≤ event.clientX / w.innerWidth ∧ event.clientX / w.innerWidth ≤ 1 :=
    ⟨div_nonneg hx0 hW.le, (div_le_one hW).mpr hx1⟩
  have hy : 0 ≤ event.clientY / w.innerHeight ∧ event.clientY / w.innerHeight ≤ 1 :=
    ⟨div_nonneg hy0 hH.le, (div_le_one hH).mpr hy1⟩
  simp only [cursorInRange, onMouseMove_eq]
  refine ⟨⟨?_, ?_⟩, ?_, ?_⟩ <;> linarith [hx.1, hx.2, hy.1, hy.2]

theorem cursorOnAxis_cursorPosition : cursorOnAxis.cursorPosition = ⟨1 / 4, 0⟩ := by
  simp only [cursorOnAxis, onMouseMove_eq, window800]
  norm_num

theorem cursorOnAxis_position : cursorOnAxis.camera.position = ⟨0, 0, 12⟩ := by
  simp only [cursorOnAxis, onMouseMove_eq, construct_eq]

theorem cursorOffAxis_cursorPosition : cursorOffAxis.cursorPosition = ⟨1 / 4, -1 / 4⟩ := by
  simp only [cursorOffAxis, onMouseMove_eq, window800]
  norm_num

theorem cursorOffAxis_position : cursorOffAxis.camera.position = ⟨0, 0, 12⟩ := by
  simp only [cursorOffAxis, onMouseMove_eq, construct_eq]

/-! ## C1: when the camera follow is applied -/

/-- C1 (as stated, refuted): with the cursor at (1/4, 0), which is not (0, 0),
one call of `update` leaves the camera x at 0 instead of moving it to
`0 + ((1/4 - 1) - 0) / 10 = -3/40`. -/
theorem update_follow_skipped_on_axis :
    cursorOnAxis.cursorPosition = ⟨1 / 4, 0⟩ ∧
      cursorOnAxis.cursorPosition ≠ ⟨0, 0⟩ ∧
      cursorOnAxis.camera.position.x = 0 ∧
      (update 16 cursorOnAxis).camera.position.x = 0 ∧
      (update 16 cursorOnAxis).camera.position.x ≠
        cursorOnAxis.camera.position.x +
          ((cursorOnAxis.cursorPosition.x - 1) - cursorOnAxis.camera.position.x) / 10 := by
  have hc := cursorOnAxis_cursorPosition
  have hp : cursorOnAxis.camera.position.x = 0 := by rw [cursorOnAxis_position]
  have hu : (update 16 cursorOnAxis).camera.position.x = 0 := by
    rw [update_camera_inactive 16 cursorOnAxis (Or.inr (by rw [hc])), hp]
  refine ⟨hc, ?_, hp, hu, ?_⟩
  · rw [hc]
    intro h
    have := congrArg CursorPosition.x h
    norm_num at this
  · rw [hu, hp, hc]
    norm_num

/-- C1 (amended): for every state whose cursor components are both non-zero,
one call of `update` leaves the camera at `x + ((cx - 1) - x) / 10` and
`y + ((-cy) - y) / 10`, with z as before; and whenever at least one cursor
component is exactly zero the camera is left as it is. -/
theorem update_follow_iff_both_nonzero (now : ℚ) (s : State) :
    (s.cursorPosition.x ≠ 0 ∧ s.cursorPosition.y ≠ 0 →
      (update now s).camera.position.x =
          s.camera.position.x + ((s.cursorPosition.x - 1) - s.camera.position.x) / 10 ∧
        (update now s).camera.position.y =
          s.camera.position.y + ((-s.cursorPosition.y) - s.camera.position.y) / 10 ∧
        (update now s).camera.position.z = s.camera.position.z) ∧
    (s.cursorPosition.x = 0 ∨ s.cursorPosition.y = 0 →
      (update now s).camera = s.camera) := by
  constructor
  · rintro ⟨hx, hy⟩
    rw [update_camera_active now s hx hy]
    refine ⟨rfl, ?_, rfl⟩
    show s.camera.position.y + (s.cursorPosition.y * -1 - s.camera.position.y) / 10 = _
    ring
  · intro h
    exact update_camera_inactive now s h

/-- C1 (amended), at the state after a mouse move to (600, 150) in an 800 by
600 window: the cursor is (1/4, -1/4) and one frame moves the camera from
(0, 0, 12) to (-3/40, 1/40, 12). -/
theorem update_follow_iff_both_nonzero_witness :
    cursorOffAxis.cursorPosition = ⟨1 / 4, -1 / 4⟩ ∧
      (update 16 cursorOffAxis).camera.position = ⟨-3 / 40, 1 / 40, 12⟩ := by
  have hc := cursorOffAxis_cursorPosition
  have hp := cursorOffAxis_position
  have h := (update_follow_iff_both_nonzero 16 cursorOffAxis).1
    ⟨by rw [hc]; norm_num, by rw [hc]; norm_num⟩
  rw [hc, hp] at h
  refine ⟨hc, Vector3.ext ?_ ?_ ?_⟩
  · rw [h.1]; norm_num
  · rw [h.2.1]; norm_num
  · rw [h.2.2]


/-! ## C2: the mouse-move handler -/

/-- C2: for a window of positive size and a mouse position inside the viewport,
`onMouseMove` sets the cursor to exactly `(clientX / W - 1/2, clientY / H - 1/2)`,
both components lie in `[-1/2, 1/2]`, and every other field (camera, scene,
renderer, animation player, mesh, clock) is left as it was. -/
theorem onMouseMove_cursor_in_range (w : Window) (event : MouseEvent) (s : State)
    (h : inViewport w event) :
    (onMouseMove w event s).cursorPosition =
        ⟨event.clientX / w.innerWidth - 1 / 2, event.clientY / w.innerHeight - 1 / 2⟩ ∧
      (-1 / 2 ≤ (onMouseMove w event s).cursorPosition.x ∧
        (onMouseMove w event s).cursorPosition.x ≤ 1 / 2) ∧
      (-1 / 2 ≤ (onMouseMove w event s).cursorPosition.y ∧
        (onMouseMove w event s).cursorPosition.y ≤ 1 / 2) ∧
      (onMouseMove w event s).camera = s.camera ∧
      (onMouseMove w event s).scene = s.scene ∧
      (onMouseMove w event s).renderer = s.renderer ∧
      (onMouseMove w event s).mixer = s.mixer ∧
      (onMouseMove w event s).mesh = s.mesh ∧
      (onMouseMove w event s).clock = s.clock := by
  have hr := onMouseMove_cursorInRange w event s h
  exact ⟨rfl, hr.1, hr.2, rfl, rfl, rfl, rfl, rfl, rfl⟩

/-- C2 at a mouse move to (600, 150) in an 800 by 600 window: the cursor
becomes (1/4, -1/4). -/
theorem onMouseMove_cursor_in_range_witness :
    inViewport window800 ⟨600, 150⟩ ∧
      (onMouseMove window800 ⟨600, 150⟩ (construct window800 0)).cursorPosition =
        ⟨1 / 4, -1 / 4⟩ := by
  have hv : inViewport window800 ⟨600, 150⟩ := by
    simp only [inViewport, window800]
    norm_num
  refine ⟨hv, ?_⟩
  rw [(onMouseMove_cursor_in_range window800 ⟨600, 150⟩ (construct window800 0) hv).1]
  simp only [window800]
  norm_num

/-! ## C5 and C9: the resize handler -/

/-- C5: for a window of positive size and a positive device pixel ratio `d`,
after `resize` the camera aspect (and the aspect of the projection in
effect) is `W / H`, the renderer size is `(W, H)`, the renderer pixel ratio
is `min d 2`, which is at most 2 and equals `d` when `d ≤ 2`; the camera
position and the cursor position are unchanged. -/
theorem resize_aspect_size_pixelRatio (w : Window) (s : State)
    (hW : 0 < w.innerWidth) (hH : 0 < w.innerHeight) (hd : 0 < w.devicePixelRatio) :
    (resize w s).camera.aspect = w.innerWidth / w.innerHeight ∧
      (resize w s).camera.aspect * w.innerHeight = w.innerWidth ∧
      0 < (resize w s).camera.aspect ∧
      (resize w s).camera.projection.aspect = w.innerWidth / w.innerHeight ∧
      (resize w s).renderer.width = w.innerWidth ∧
      (resize w s).renderer.height = w.innerHeight ∧
      (resize w s).renderer.pixelRatio = min w.devicePixelRatio 2 ∧
      0 < (resize w s).renderer.pixelRatio ∧
      (resize w s).renderer.pixelRatio ≤ 2 ∧
      (w.devicePixelRatio ≤ 2 → (resize w s).renderer.pixelRatio = w.devicePixelRatio) ∧
      (resize w s).camera.position = s.camera.position ∧
      (resize w s).cursorPosition = s.cursorPosition := by
  refine ⟨rfl, ?_, ?_, rfl, rfl, rfl, rfl, ?_, ?_, ?_, rfl, rfl⟩
  · show w.innerWidth / w.innerHeight * w.innerHeight = w.innerWidth
    exact div_mul_cancel₀ _ hH.ne'
  · show 0 < w.innerWidth / w.innerHeight
    exact div_pos hW hH
  · show 0 < min w.devicePixelRatio 2
    exact lt_min hd (by norm_num)
  · show min w.devicePixelRatio 2 ≤ 2
    exact min_le_right _ _
  · intro h
    show min w.devicePixelRatio 2 = w.devicePixelRatio
    exact min_eq_left h

/-- C5 at a 1024 by 768 window with device pixel ratio 3: the aspect becomes
4/3 and the pixel ratio is capped at 2. -/
theorem resize_aspect_size_pixelRatio_witness :
    (resize (window1024 3) (construct window800 0)).camera.aspect = 4 / 3 ∧
      (resize (window1024 3) (construct window800 0)).renderer.pixelRatio = 2 := by
  have h := resize_aspect_size_pixelRatio (window1024 3) (construct window800 0)
    (by simp only [window1024]; norm_num) (by simp only [window1024]; norm_num)
    (by simp only [window1024]; norm_num)
  refine ⟨?_, ?_⟩
  · rw [h.1]
    simp only [window1024]
    norm_num
  · rw [h.2.2.2.2.2.2.1]
    simp only [window1024]
    norm_num

/-- C9: `resize` is idempotent: with the window unchanged, calling it twice in
a row yields the same state as calling it once. -/
theorem resize_idempotent (w : Window) (s : State) :
    resize w (resize w s) = resize w s :=
  rfl


/-! ## C8: the state right after construction -/

/-- C8: for a window of positive size, the state right after construction has
camera aspect `W / H`, field of view 75, near plane 1, far plane 100,
renderer size `(W, H)` with pixel ratio `min d 2`, cursor (0, 0), no
animation player, and a scene whose children are the five fixed lights, in
the order they are added (one ambient, two directional, two point), followed
by the asset container, which has no children. -/
theorem construct_initial_state (w : Window) (now : ℚ)
    (hW : 0 < w.innerWidth) (hH : 0 < w.innerHeight) :
    (construct w now).camera.aspect = w.innerWidth / w.innerHeight ∧
      0 < (construct w now).camera.aspect ∧
      (construct w now).camera.fov = 75 ∧
      (construct w now).camera.near = 1 ∧
      (construct w now).camera.far = 100 ∧
      (construct w now).renderer.width = w.innerWidth ∧
      (construct w now).renderer.height = w.innerHeight ∧
      (construct w now).renderer.pixelRatio = min w.devicePixelRatio 2 ∧
      (construct w now).cursorPosition = ⟨0, 0⟩ ∧
      (construct w now).mixer = none ∧
      (construct w now).scene.children =
        [ .light (.AmbientLight 0xffffff 1),
          .light (.DirectionalLight 0xffffff (1 / 2) ⟨0, 0, 0⟩),
          .light (.PointLight 0x4192AB 2 0 ⟨10, 10, 5⟩),
          .light (.PointLight 0xffffff (1 / 10) 0 ⟨-150, -200, -100⟩),
          .light (.DirectionalLight 0xffffff 5 ⟨10, 10, 10⟩),
          .mesh ] ∧
      (construct w now).scene.children.length = 6 ∧
      (construct w now).scene.lights.length = 5 ∧
      (construct w now).scene.lightCount .ambient = 1 ∧
      (construct w now).scene.lightCount .directional = 2 ∧
      (construct w now).scene.lightCount .point = 2 ∧
      (construct w now).scene.meshCount = 1 ∧
      (construct w now).mesh.children = [] := by
  rw [construct_eq]
  refine ⟨rfl, div_pos hW hH, rfl, rfl, rfl, rfl, rfl, rfl, rfl, rfl, rfl, rfl, rfl, ?_, ?_, ?_,
    ?_, rfl⟩
  · simp [Scene.lightCount, Scene.lights, Light.kind]
  · simp [Scene.lightCount, Scene.lights, Light.kind]
  · simp [Scene.lightCount, Scene.lights, Light.kind]
  · simp [Scene.meshCount]

/-- C8 at an 800 by 600 window: the aspect is `800 / 600`, the renderer size is
(800, 600), and the scene holds five lights and the empty asset container. -/
theorem construct_initial_state_witness :
    (construct window800 0).camera.aspect = 800 / 600 ∧
      (construct window800 0).renderer.width = 800 ∧
      (construct window800 0).renderer.height = 600 ∧
      (construct window800 0).scene.lights.length = 5 ∧
      (construct window800 0).scene.meshCount = 1 ∧
      (construct window800 0).mesh.children = [] := by
  have h := construct_initial_state window800 0
    (by simp only [window800]; norm_num) (by simp only [window800]; norm_num)
  exact ⟨h.1, h.2.2.2.2.2.1, h.2.2.2.2.2.2.1, h.2.2.2.2.2.2.2.2.2.2.2.2.1,
    h.2.2.2.2.2.2.2.2.2.2.2.2.2.2.2.2.1, h.2.2.2.2.2.2.2.2.2.2.2.2.2.2.2.2.2⟩

/-! ## C4: the cursor at exactly (0, 0) -/

theorem frames_nil (s : State) : frames [] s = s :=
  rfl

theorem frames_cons (now : ℚ) (ts : List ℚ) (s : State) :
    frames (now :: ts) s = frames ts (update now s) :=
  rfl

theorem frames_append (ts us : List ℚ) (s : State) :
    frames (ts ++ us) s = frames us (frames ts s) := by
  simp [frames, List.foldl_append]

theorem frames_cursorPosition (ts : List ℚ) (s : State) :
    (frames ts s).cursorPosition = s.cursorPosition := by
  induction ts generalizing s with
  | nil => rfl
  | cons now ts ih => rw [frames_cons, ih, update_cursorPosition]

theorem frames_camera_inactive (ts : List ℚ) (s : State)
    (h : s.cursorPosition.x = 0 ∨ s.cursorPosition.y = 0) :
    (frames ts s).camera = s.camera := by
  induction ts generalizing s with
  | nil => rfl
  | cons now ts ih =>
    rw [frames_cons, ih _ (by rw [update_cursorPosition]; exact h),
      update_camera_inactive now s h]

/-- C4: if the cursor is exactly (0, 0), any number of calls of `update` leaves
the camera, and so its x and y, as it was; and in a 1024 by 768 window a
mouse move to (512, 384) sets the cursor to exactly (0, 0), after which any
number of frames leaves the camera as it was. -/
theorem frames_cursor_zero_camera_unchanged (ts : List ℚ) (s : State) (d : ℚ) :
    (s.cursorPosition = ⟨0, 0⟩ →
      (frames ts s).camera.position.x = s.camera.position.x ∧
        (frames ts s).camera.position.y = s.camera.position.y ∧
        (frames ts s).camera = s.camera) ∧
    (onMouseMove (window1024 d) ⟨512, 384⟩ s).cursorPosition = ⟨0, 0⟩ ∧
    (frames ts (onMouseMove (window1024 d) ⟨512, 384⟩ s)).camera = s.camera := by
  have hc : (onMouseMove (window1024 d) ⟨512, 384⟩ s).cursorPosition = ⟨0, 0⟩ := by
    simp only [onMouseMove_eq, window1024]
    norm_num
  refine ⟨?_, hc, ?_⟩
  · intro h
    have hcam := frames_camera_inactive ts s (Or.inl (by rw [h]))
    exact ⟨by rw [hcam], by rw [hcam], hcam⟩
  · rw [frames_camera_inactive ts _ (Or.inl (by rw [hc]))]
    exact onMouseMove_camera _ _ s

/-- C4 right after construction, where the cursor is (0, 0): three frames
leave the camera at (0, 0, 12). -/
theorem frames_cursor_zero_camera_unchanged_witness :
    (construct window800 0).cursorPosition = ⟨0, 0⟩ ∧
      (frames [16, 32, 48] (construct window800 0)).camera.position = ⟨0, 0, 12⟩ := by
  have hc : (construct window800 0).cursorPosition = ⟨0, 0⟩ := by rw [construct_eq]
  refine ⟨hc, ?_⟩
  rw [((frames_cursor_zero_camera_unchanged [16, 32, 48] (construct window800 0) 1).1 hc).2.2,
    construct_eq]


/-! ## C3: the follow is a contraction -/

theorem update_offsetX (now : ℚ) (s : State)
    (hx : s.cursorPosition.x ≠ 0) (hy : s.cursorPosition.y ≠ 0) :
    offsetX (update now s) = 9 / 10 * offsetX s := by
  simp only [offsetX, targetX, update_cursorPosition, update_camera_active now s hx hy]
  ring

theorem update_offsetY (now : ℚ) (s : State)
    (hx : s.cursorPosition.x ≠ 0) (hy : s.cursorPosition.y ≠ 0) :
    offsetY (update now s) = 9 / 10 * offsetY s := by
  simp only [offsetY, targetY, update_cursorPosition, update_camera_active now s hx hy]
  ring

theorem frames_offsetX (ts : List ℚ) (s : State)
    (hx : s.cursorPosition.x ≠ 0) (hy : s.cursorPosition.y ≠ 0) :
    offsetX (frames ts s) = (9 / 10) ^ ts.length * offsetX s := by
  induction ts generalizing s with
  | nil => simp [frames_nil]
  | cons now ts ih =>
    rw [frames_cons, ih _ (by rwa [update_cursorPosition]) (by rwa [update_cursorPosition]),
      update_offsetX now s hx hy, List.length_cons]
    ring

theorem frames_offsetY (ts : List ℚ) (s : State)
    (hx : s.cursorPosition.x ≠ 0) (hy : s.cursorPosition.y ≠ 0) :
    offsetY (frames ts s) = (9 / 10) ^ ts.length * offsetY s := by
  induction ts generalizing s with
  | nil => simp [frames_nil]
  | cons now ts ih =>
    rw [frames_cons, ih _ (by rwa [update_cursorPosition]) (by rwa [update_cursorPosition]),
      update_offsetY now s hx hy, List.length_cons]
    ring

theorem sign_scaled (n : ℕ) (a : ℚ) :
    SignType.sign ((9 / 10 : ℚ) ^ n * a) = SignType.sign a := by
  have hp : (0 : ℚ) < (9 / 10) ^ n := by positivity
  rw [sign_mul, sign_pos hp, one_mul]

/-- C3: with a fixed cursor on which the follow is active (both components
non-zero), after `n` calls of `update` the offset of the camera from the
target `(cx - 1, -cy)` is, on each axis, `(9/10)^n` times the initial
offset.  Hence the offset keeps its sign on each axis (no overshoot); and if
the camera starts off target, the next frame strictly decreases the (squared)
distance to the target, and the camera is not at the target after any
number of frames. -/
theorem frames_offset_contracts (ts : List ℚ) (now : ℚ) (s : State)
    (hx : s.cursorPosition.x ≠ 0) (hy : s.cursorPosition.y ≠ 0) :
    (frames ts s).camera.position.x - (s.cursorPosition.x - 1) =
        (9 / 10) ^ ts.length * (s.camera.position.x - (s.cursorPosition.x - 1)) ∧
      (frames ts s).camera.position.y - (-s.cursorPosition.y) =
        (9 / 10) ^ ts.length * (s.camera.position.y - (-s.cursorPosition.y)) ∧
      SignType.sign (offsetX (frames ts s)) = SignType.sign (offsetX s) ∧
      SignType.sign (offsetY (frames ts s)) = SignType.sign (offsetY s) ∧
      distanceSq (update now (frames ts s)) = (9 / 10) ^ 2 * distanceSq (frames ts s) ∧
      ((s.camera.position.x ≠ s.cursorPosition.x - 1 ∨
          s.camera.position.y ≠ -s.cursorPosition.y) →
        distanceSq (update now (frames ts s)) < distanceSq (frames ts s) ∧
          ((frames ts s).camera.position.x ≠ s.cursorPosition.x - 1 ∨
            (frames ts s).camera.position.y ≠ -s.cursorPosition.y)) := by
  have hX := frames_offsetX ts s hx hy
  have hY := frames_offsetY ts s hx hy
  have hcur := frames_cursorPosition ts s
  have hx' : (frames ts s).cursorPosition.x ≠ 0 := by rwa [hcur]
  have hy' : (frames ts s).cursorPosition.y ≠ 0 := by rwa [hcur]
  have hstep : distanceSq (update now (frames ts s)) = (9 / 10) ^ 2 * distanceSq (frames ts s) := by
    simp only [distanceSq, update_offsetX now _ hx' hy', update_offsetY now _ hx' hy']
    ring
  have hp : (0 : ℚ) < (9 / 10) ^ ts.length := by positivity
  have hXe : (frames ts s).camera.position.x - (s.cursorPosition.x - 1) =
      (9 / 10) ^ ts.length * (s.camera.position.x - (s.cursorPosition.x - 1)) := by
    have := hX
    simp only [offsetX, targetX, hcur] at this
    exact this
  have hYe : (frames ts s).camera.position.y - (-s.cursorPosition.y) =
      (9 / 10) ^ ts.length * (s.camera.position.y - (-s.cursorPosition.y)) := by
    have := hY
    simp only [offsetY, targetY, hcur] at this
    rw [show (-s.cursorPosition.y) = s.cursorPosition.y * -1 by ring]
    exact this
  refine ⟨hXe, hYe, ?_, ?_, hstep, ?_⟩
  · rw [hX, sign_scaled]
  · rw [hY, sign_scaled]
  · intro hoff
    have hne : (frames ts s).camera.position.x ≠ s.cursorPosition.x - 1 ∨
        (frames ts s).camera.position.y ≠ -s.cursorPosition.y := by
      rcases hoff with h | h
      · left
        intro he
        rw [he, sub_self] at hXe
        rcases mul_eq_zero.mp hXe.symm with h0 | h0
        · exact hp.ne' h0
        · exact h (sub_eq_zero.mp h0)
      · right
        intro he
        rw [he, sub_self] at hYe
        rcases mul_eq_zero.mp hYe.symm with h0 | h0
        · exact hp.ne' h0
        · exact h (sub_eq_zero.mp h0)
    refine ⟨?_, hne⟩
    have hpos : 0 < distanceSq (frames ts s) := by
      simp only [distanceSq, offsetX, offsetY, targetX, targetY, hcur]
      rcases hne with h | h
      · have : (frames ts s).camera.position.x - (s.cursorPosition.x - 1) ≠ 0 :=
          sub_ne_zero.mpr h
        positivity
      · have : (frames ts s).camera.position.y - s.cursorPosition.y * -1 ≠ 0 := by
          intro h0
          apply h
          linarith
        positivity
    rw [hstep]
    nlinarith

/-- C3 at the state after a mouse move to (600, 150) in an 800 by 600 window,
where the cursor is (1/4, -1/4), the target (-3/4, 1/4) and the camera at
(0, 0): after two frames the offsets are 81/100 of the initial ones. -/
theorem frames_offset_contracts_witness :
    (frames [16, 32] cursorOffAxis).camera.position.x = -57 / 400 ∧
      (frames [16, 32] cursorOffAxis).camera.position.y = 19 / 400 := by
  have hc := cursorOffAxis_cursorPosition
  have hp := cursorOffAxis_position
  have h := frames_offset_contracts [16, 32] 48 cursorOffAxis
    (by rw [hc]; norm_num) (by rw [hc]; norm_num)
  obtain ⟨h1, h2, -⟩ := h
  rw [hc, hp] at h1 h2
  norm_num at h1 h2
  constructor
  · linarith
  · linarith


/-! ## Runs of events -/

theorem run_nil (s : State) : run [] s = s :=
  rfl

theorem run_cons (e : Event) (es : List Event) (s : State) :
    run (e :: es) s = run es (dispatch s e) :=
  rfl

theorem run_append (es fs : List Event) (s : State) :
    run (es ++ fs) s = run fs (run es s) := by
  simp [run, List.foldl_append]

theorem dispatch_position_z (s : State) (e : Event) :
    (dispatch s e).camera.position.z = s.camera.position.z := by
  cases e with
  | resize w => rfl
  | mousemove w event => rfl
  | frame now => exact update_position_z now s
  | gltfLoaded gltf => rfl

theorem dispatch_mesh_rotation (s : State) (e : Event) :
    (dispatch s e).mesh.rotation = s.mesh.rotation := by
  cases e with
  | resize w => rfl
  | mousemove w event => rfl
  | frame now => exact congrArg Mesh.rotation (update_mesh now s)
  | gltfLoaded gltf => rfl

theorem run_position_z (es : List Event) (s : State) :
    (run es s).camera.position.z = s.camera.position.z := by
  induction es generalizing s with
  | nil => rfl
  | cons e es ih => rw [run_cons, ih, dispatch_position_z]

theorem run_mesh_rotation (es : List Event) (s : State) :
    (run es s).mesh.rotation = s.mesh.rotation := by
  induction es generalizing s with
  | nil => rfl
  | cons e es ih => rw [run_cons, ih, dispatch_mesh_rotation]

/-! ## C7: the targets of the entrance animation -/

/-- C7: whatever resize, mouse-move, frame and load-completion events run
between construction and `enterAnimation`, the camera z is still its
construction value 12 and the rotation of the asset container still 0 when
`enterAnimation` runs; so step 1 tweens the camera z to `12 + 10 = 22` over
2.7 s, and step 2, placed at `<15%`, tweens the container's rotation about
the y axis to its value at start plus 3.2 over 2.85 s. -/
theorem enterAnimation_targets (w : Window) (now : ℚ) (es : List Event) :
    (run es (construct w now)).camera.position.z = 12 ∧
      (construct w now).camera.position.z = 12 ∧
      enterAnimation (run es (construct w now)) =
        [ { target := .cameraPositionZ, value := 22, duration := 27 / 10,
            ease := "expo.easeInOut", position := none },
          { target := .meshRotationY,
            value := (run es (construct w now)).mesh.rotation.y + 16 / 5,
            duration := 57 / 20, ease := "power3.easeIn", position := some "<15%" } ] ∧
      (run es (construct w now)).mesh.rotation.y + 16 / 5 = 16 / 5 := by
  have hz0 : (construct w now).camera.position.z = 12 := by rw [construct_eq]
  have hz : (run es (construct w now)).camera.position.z = 12 := by
    rw [run_position_z, hz0]
  have hr : (run es (construct w now)).mesh.rotation.y = 0 := by
    rw [run_mesh_rotation, construct_eq]
  refine ⟨hz, hz0, ?_, ?_⟩
  · simp only [enterAnimation, hz]
    norm_num
  · rw [hr]
    norm_num

/-! ## C10: the follow keeps the camera in a box -/

theorem update_inBox (now : ℚ) (s : State) (hb : inBox s) (hc : cursorInRange s) :
    inBox (update now s) := by
  by_cases h : s.cursorPosition.x ≠ 0 ∧ s.cursorPosition.y ≠ 0
  · obtain ⟨⟨cx0, cx1⟩, cy0, cy1⟩ := hc
    obtain ⟨bx0, bx1, by0, by1⟩ := hb
    simp only [inBox, update_camera_active now s h.1 h.2]
    refine ⟨?_, ?_, ?_, ?_⟩ <;> linarith
  · simp only [inBox, update_camera_inactive now s (by tauto)]
    exact hb

theorem dispatch_inBox (s : State) (e : Event) (he : e.inside)
    (hb : inBox s) (hc : cursorInRange s) :
    inBox (dispatch s e) ∧ cursorInRange (dispatch s e) := by
  cases e with
  | resize w => exact ⟨hb, hc⟩
  | mousemove w event =>
    exact ⟨hb, onMouseMove_cursorInRange w event s he⟩
  | frame now =>
    refine ⟨update_inBox now s hb hc, ?_⟩
    simp only [cursorInRange, dispatch, update_cursorPosition]
    exact hc
  | gltfLoaded gltf => exact ⟨hb, hc⟩

theorem run_inBox (es : List Event) (s : State) (he : mouseInside es)
    (hb : inBox s) (hc : cursorInRange s) :
    inBox (run es s) ∧ cursorInRange (run es s) := by
  induction es generalizing s with
  | nil => exact ⟨hb, hc⟩
  | cons e es ih =>
    have h := dispatch_inBox s e (he e (List.mem_cons_self _ _)) hb hc
    rw [run_cons]
    exact ih _ (fun e' h' => he e' (List.mem_cons_of_mem _ h')) h.1 h.2

/-- C10: starting from the constructed state, where the camera is at
`(x, y) = (0, 0)`, after every sequence of mouse moves inside the viewport
of a window of positive size, resizes, frames and load completions, the
camera satisfies `-3/2 ≤ x ≤ 0` and `-1/2 ≤ y ≤ 1/2`; and one more frame
either leaves the position alone or replaces it by the convex combination
`9/10 · position + 1/10 · target` with the target in
`[-3/2, -1/2] × [-1/2, 1/2]`. -/
theorem run_camera_in_box (w : Window) (now : ℚ) (es : List Event) (t : ℚ)
    (he : mouseInside es) :
    (-3 / 2 ≤ (run es (construct w now)).camera.position.x ∧
        (run es (construct w now)).camera.position.x ≤ 0) ∧
      (-1 / 2 ≤ (run es (construct w now)).camera.position.y ∧
        (run es (construct w now)).camera.position.y ≤ 1 / 2) ∧
      (-3 / 2 ≤ targetX (run es (construct w now)) ∧
        targetX (run es (construct w now)) ≤ -1 / 2) ∧
      (-1 / 2 ≤ targetY (run es (construct w now)) ∧
        targetY (run es (construct w now)) ≤ 1 / 2) ∧
      ((update t (run es (construct w now))).camera.position =
          (run es (construct w now)).camera.position ∨
        (update t (run es (construct w now))).camera.position.x =
            9 / 10 * (run es (construct w now)).camera.position.x +
              1 / 10 * targetX (run es (construct w now)) ∧
          (update t (run es (construct w now))).camera.position.y =
            9 / 10 * (run es (construct w now)).camera.position.y +
              1 / 10 * targetY (run es (construct w now))) := by
  have hb0 : inBox (construct w now) := by
    simp only [inBox, construct_eq]
    norm_num
  have hc0 : cursorInRange (construct w now) := by
    simp only [cursorInRange, construct_eq]
    norm_num
  obtain ⟨⟨bx0, bx1, by0, by1⟩, ⟨cx0, cx1⟩, cy0, cy1⟩ := run_inBox es _ he hb0 hc0
  refine ⟨⟨bx0, bx1⟩, ⟨by0, by1⟩, ⟨?_, ?_⟩, ⟨?_, ?_⟩, ?_⟩
  · simp only [targetX]; linarith
  · simp only [targetX]; linarith
  · simp only [targetY]; linarith
  · simp only [targetY]; linarith
  · by_cases h : (run es (construct w now)).cursorPosition.x ≠ 0 ∧
        (run es (construct w now)).cursorPosition.y ≠ 0
    · right
      rw [update_camera_active t _ h.1 h.2]
      simp only [targetX, targetY]
      constructor <;> ring
    · left
      rw [update_camera_inactive t _ (by tauto)]

/-- C10 on a run with a resize, two mouse moves and three frames: all mouse
moves lie in the viewport and the camera ends at (-3/40, 1/40), inside the
box. -/
theorem run_camera_in_box_witness :
    mouseInside
        [.frame 16, .mousemove window800 ⟨600, 150⟩, .frame 32, .resize (window1024 2),
          .mousemove (window1024 2) ⟨512, 384⟩, .frame 48] ∧
      (-3 / 2 ≤ (run
          [.frame 16, .mousemove window800 ⟨600, 150⟩, .frame 32, .resize (window1024 2),
            .mousemove (window1024 2) ⟨512, 384⟩, .frame 48]
          (construct window800 0)).camera.position.x ∧
        (run
          [.frame 16, .mousemove window800 ⟨600, 150⟩, .frame 32, .resize (window1024 2),
            .mousemove (window1024 2) ⟨512, 384⟩, .frame 48]
          (construct window800 0)).camera.position.x ≤ 0) := by
  have hm : mouseInside
      [.frame 16, .mousemove window800 ⟨600, 150⟩, .frame 32, .resize (window1024 2),
        .mousemove (window1024 2) ⟨512, 384⟩, .frame 48] := by
    intro e he
    simp only [List.mem_cons, List.mem_singleton, List.not_mem_nil, or_false] at he
    rcases he with rfl | rfl | rfl | rfl | rfl | rfl <;>
      simp only [Event.inside, inViewport, window800, window1024] <;> norm_num
  exact ⟨hm, (run_camera_in_box window800 0 _ 64 hm).1⟩


/-! ## C6: the delta the animation player is advanced by -/

theorem getDelta_running (now : ℚ) (c : Clock) (h : c.running = true) :
    c.getDelta now =
      ((now - c.oldTime) / 1000,
        { c with oldTime := now, elapsedTime := c.elapsedTime + (now - c.oldTime) / 1000 }) := by
  simp [Clock.getDelta, h]

theorem update_clock_running (now : ℚ) (s : State) (h : s.clock.running = true) :
    (update now s).clock.running = true := by
  cases hm : s.mixer with
  | none => rw [(update_mixer_none now s hm).2, h]
  | some m =>
    rw [(update_mixer_some now s m hm).2, getDelta_running now _ h]
    exact h

theorem dispatch_clock_running (s : State) (e : Event) (h : s.clock.running = true) :
    (dispatch s e).clock.running = true := by
  cases e with
  | resize w => exact h
  | mousemove w event => exact h
  | frame now => exact update_clock_running now s h
  | gltfLoaded gltf => exact h

theorem run_clock_running (es : List Event) (s : State) (h : s.clock.running = true) :
    (run es s).clock.running = true := by
  induction es generalizing s with
  | nil => exact h
  | cons e es ih => rw [run_cons]; exact ih _ (dispatch_clock_running s e h)

/-- A run without frames leaves the clock as it is. -/
theorem run_clock_of_no_frame (es : List Event) (s : State)
    (h : ∀ e ∈ es, e.isFrame = false) : (run es s).clock = s.clock := by
  induction es generalizing s with
  | nil => rfl
  | cons e es ih =>
    rw [run_cons, ih _ (fun e' h' => h e' (List.mem_cons_of_mem _ h'))]
    have he := h e (List.mem_cons_self _ _)
    cases e with
    | resize w => rfl
    | mousemove w event => rfl
    | frame now => simp [Event.isFrame] at he
    | gltfLoaded gltf => rfl

/-- A run without load completions leaves an absent player absent, and then
leaves the clock as it is. -/
theorem run_mixer_none_of_no_load (es : List Event) (s : State)
    (h : ∀ e ∈ es, e.isLoad = false) (hm : s.mixer = none) :
    (run es s).mixer = none ∧ (run es s).clock = s.clock := by
  induction es generalizing s with
  | nil => exact ⟨hm, rfl⟩
  | cons e es ih =>
    have he := h e (List.mem_cons_self _ _)
    have hd : (dispatch s e).mixer = none ∧ (dispatch s e).clock = s.clock := by
      cases e with
      | resize w => exact ⟨hm, rfl⟩
      | mousemove w event => exact ⟨hm, rfl⟩
      | frame now => exact update_mixer_none now s hm
      | gltfLoaded gltf => simp [Event.isLoad] at he
    have := ih _ (fun e' h' => h e' (List.mem_cons_of_mem _ h')) hd.1
    rw [run_cons]
    exact ⟨this.1, this.2.trans hd.2⟩

/-- A run without frames and load completions leaves the player as it is. -/
theorem run_mixer_of_no_frame_no_load (es : List Event) (s : State)
    (hf : ∀ e ∈ es, e.isFrame = false) (hl : ∀ e ∈ es, e.isLoad = false) :
    (run es s).mixer = s.mixer := by
  induction es generalizing s with
  | nil => rfl
  | cons e es ih =>
    rw [run_cons, ih _ (fun e' h' => hf e' (List.mem_cons_of_mem _ h'))
      (fun e' h' => hl e' (List.mem_cons_of_mem _ h'))]
    have h1 := hf e (List.mem_cons_self _ _)
    have h2 := hl e (List.mem_cons_self _ _)
    cases e with
    | resize w => rfl
    | mousemove w event => rfl
    | frame now => simp [Event.isFrame] at h1
    | gltfLoaded gltf => simp [Event.isLoad] at h2

theorem loadedAfterFrame_mixer :
    loadedAfterFrame.mixer =
      some { root := { name := "Scene", scale := ⟨1 / 10, 1 / 10, 1 / 10⟩ },
             playing := ["Take 001"], time := 0 } := by
  simp [loadedAfterFrame, run, dispatch, onGltfLoaded, sampleGltf, AnimationMixer.new,
    AnimationMixer.play]

theorem loadedAfterFrame_clock :
    loadedAfterFrame.clock =
      { autoStart := true, startTime := 0, oldTime := 0, elapsedTime := 0, running := true } := by
  have h : (update 16 (construct window800 0)).clock = (construct window800 0).clock :=
    (update_mixer_none 16 _ (by rw [construct_eq])).2
  show (onGltfLoaded sampleGltf (update 16 (construct window800 0))).clock = _
  show (update 16 (construct window800 0)).clock = _
  rw [h, construct_eq]

/-- C6 (as stated, refuted): construct at time 0, run a frame at 16 ms, let the
load complete, and run the next frame at 32 ms.  The player is present in
that frame and 16 ms have elapsed since the previous frame, yet the frame
advances the player from 0 by 32/1000 s, not by 16/1000 s. -/
theorem update_first_delta_spans_load :
    loadedAfterFrame.mixer =
        some { root := { name := "Scene", scale := ⟨1 / 10, 1 / 10, 1 / 10⟩ },
               playing := ["Take 001"], time := 0 } ∧
      (update 32 loadedAfterFrame).mixer =
        some { root := { name := "Scene", scale := ⟨1 / 10, 1 / 10, 1 / 10⟩ },
               playing := ["Take 001"], time := 32 / 1000 } ∧
      (32 / 1000 : ℚ) - 0 ≠ (32 - 16) / 1000 := by
  refine ⟨loadedAfterFrame_mixer, ?_, by norm_num⟩
  rw [(update_mixer_some 32 loadedAfterFrame _ loadedAfterFrame_mixer).1,
    getDelta_running 32 _ (by rw [loadedAfterFrame_clock]), loadedAfterFrame_clock]
  simp [AnimationMixer.update]

/-- C6 (amended): in a frame in which the animation player is present (and
the clock runs, as it does from construction on), `update` advances the
player by exactly the time elapsed since the clock was last queried, and
that delta is not negative when time has not gone backwards.  The clock is
queried only in frames in which the player is present: between two such
frames with no other frame in between the delta is the time between the two
frames, and in the first frame after the load has created the player it is
the time elapsed since the clock was started at construction. -/
theorem update_advances_by_clock_delta (w : Window) (t0 t1 t2 : ℚ) (s : State)
    (m : AnimationMixer) (gltf : GLTF) (es fs : List Event) :
    (s.mixer = some m → s.clock.running = true →
      (update t2 s).mixer = some (m.update ((t2 - s.clock.oldTime) / 1000)) ∧
        (update t2 s).clock.oldTime = t2 ∧
        (s.clock.oldTime ≤ t2 → 0 ≤ (t2 - s.clock.oldTime) / 1000)) ∧
    (s.mixer = some m → s.clock.running = true →
      (∀ e ∈ fs, e.isFrame = false) → (∀ e ∈ fs, e.isLoad = false) →
      (update t2 (run fs (update t1 s))).mixer =
        (update t1 s).mixer.map (AnimationMixer.update ((t2 - t1) / 1000))) ∧
    ((∀ e ∈ es, e.isLoad = false) →
      (∀ e ∈ fs, e.isFrame = false) → (∀ e ∈ fs, e.isLoad = false) →
      (update t2 (run fs (onGltfLoaded gltf (run es (construct w t0))))).mixer =
        (onGltfLoaded gltf (run es (construct w t0))).mixer.map
          (AnimationMixer.update ((t2 - t0) / 1000))) := by
  have step : ∀ (now : ℚ) (s : State) (m : AnimationMixer), s.mixer = some m →
      s.clock.running = true →
      (update now s).mixer = some (m.update ((now - s.clock.oldTime) / 1000)) ∧
        (update now s).clock.oldTime = now := by
    intro now s m hm hr
    have h := update_mixer_some now s m hm
    rw [getDelta_running now _ hr] at h
    exact ⟨h.1, by rw [h.2]⟩
  refine ⟨?_, ?_, ?_⟩
  · intro hm hr
    refine ⟨(step t2 s m hm hr).1, (step t2 s m hm hr).2, ?_⟩
    intro hle
    exact div_nonneg (sub_nonneg.mpr hle) (by norm_num)
  · intro hm hr hf hl
    have h1 := step t1 s m hm hr
    have hmix : (run fs (update t1 s)).mixer = some (m.update ((t1 - s.clock.oldTime) / 1000)) := by
      rw [run_mixer_of_no_frame_no_load fs _ hf hl, h1.1]
    have hclk : (run fs (update t1 s)).clock = (update t1 s).clock :=
      run_clock_of_no_frame fs _ hf
    have hrun : (run fs (update t1 s)).clock.running = true :=
      run_clock_running fs _ (update_clock_running t1 s hr)
    rw [(step t2 _ _ hmix hrun).1, hclk, h1.2, h1.1]
    rfl
  · intro hl hf hl'
    have hc0 : (construct w t0).mixer = none := by rw [construct_eq]
    have hes := run_mixer_none_of_no_load es (construct w t0) hl hc0
    have hclk : (run fs (onGltfLoaded gltf (run es (construct w t0)))).clock =
        (construct w t0).clock := by
      rw [run_clock_of_no_frame fs _ hf]
      exact hes.2
    have hmix : (run fs (onGltfLoaded gltf (run es (construct w t0)))).mixer =
        (onGltfLoaded gltf (run es (construct w t0))).mixer :=
      run_mixer_of_no_frame_no_load fs _ hf hl'
    have hsome : (onGltfLoaded gltf (run es (construct w t0))).mixer =
        some (gltf.animations.foldl (fun m clip => m.play clip)
          (AnimationMixer.new { gltf.scene with scale := ⟨1 / 10, 1 / 10, 1 / 10⟩ })) := rfl
    have hrun : (run fs (onGltfLoaded gltf (run es (construct w t0)))).clock.running = true := by
      rw [hclk, construct_eq]
    have hold : (run fs (onGltfLoaded gltf (run es (construct w t0)))).clock.oldTime = t0 := by
      rw [hclk, construct_eq]
    rw [(step t2 _ _ (hmix.trans hsome) hrun).1, hold, hsome]
    rfl

/-- C6 (amended) on the run of the counterexample: the frame at 32 ms, the
first after the load, advances the player by 32/1000 s, the time since the
clock was started at construction. -/
theorem update_advances_by_clock_delta_witness :
    (update 32 (run [] (onGltfLoaded sampleGltf (run [.frame 16] (construct window800 0))))).mixer =
      (onGltfLoaded sampleGltf (run [.frame 16] (construct window800 0))).mixer.map
        (AnimationMixer.update ((32 - 0) / 1000)) :=
  (update_advances_by_clock_delta window800 0 16 32 (construct window800 0)
    (AnimationMixer.new sampleGltf.scene) sampleGltf [.frame 16] []).2.2
    (by
      intro e he
      simp only [List.mem_singleton] at he
      rw [he]
      rfl)
    (by intro e he; simp at he) (by intro e he; simp at he)


end BackgroundCanvas
